import Mathlib

/-!
Verification of the 2ping-micro responder (`twopingmicro.py`) against its
natural-language specification.

The development shallowly embeds the protocol core of the source file:

* `twoping_checksum` (source lines 40-63): the one's-complement 16-bit
  checksum with double carry fold and zero substitution;
* class `MT19937` (source lines 66-111): the embedded fallback generator;
* `TwoPingMicro.mturandom` (source lines 155-168): arbitrary-length byte
  strings from the generator;
* `TwoPingMicro.parse_packet` (source lines 170-233): decoding, validation
  and reply construction;
* `TwoPingMicro.__init__` (source lines 130-153): construction-time setup.

Byte buffers are `List Nat` whose elements are byte values; Python machine
arithmetic is `Nat` arithmetic with explicit masks / `% 2 ^ 32` where the
source masks.  Python operations that can raise (`struct.unpack_from`,
`struct.pack_into`, `bytes([...])`) are embedded in `Except Unit`, an
`Except.error` marking a raised exception.
-/


/-- Python slice assignment `buf[start:stop] = repl` on a `bytearray`, for
`0 ≤ start ≤ stop` (slice indices are clamped to the buffer length; when
`repl` has a different length than the selected slice the buffer changes
length, exactly as in Python). -/
def setSlice (buf : List Nat) (start stop : Nat) (repl : List Nat) : List Nat :=
  buf.take start ++ repl ++ buf.drop stop

/-- Python `struct.unpack_from('!H', buf, o)[0]`: reads a big-endian 16-bit
word at offset `o`; raises `struct.error` when fewer than two bytes remain. -/
def unpack_from_H (buf : List Nat) (o : Nat) : Except Unit Nat :=
  if o + 2 ≤ buf.length then .ok (buf.getD o 0 * 256 + buf.getD (o + 1) 0) else .error ()

/-- Python `struct.pack_into('!H', buf, o, v)`: writes `v` as two big-endian
bytes at offset `o`; raises `struct.error` when `v` does not fit 16 bits or
fewer than two bytes remain. -/
def pack_into_H (buf : List Nat) (o v : Nat) : Except Unit (List Nat) :=
  if v < 65536 ∧ o + 2 ≤ buf.length then .ok (setSlice buf o (o + 2) [v / 256, v % 256])
  else .error ()

/-- Python `bytes([a, b])`: raises `ValueError` unless both values are bytes. -/
def mkBytes2 (a b : Nat) : Except Unit (List Nat) :=
  if a < 256 ∧ b < 256 then .ok [a, b] else .error ()

/-- Big-endian 16-bit read used to state properties of produced buffers
(the pure counterpart of `unpack_from_H` at an in-range offset). -/
def readH (buf : List Nat) (o : Nat) : Nat :=
  buf.getD o 0 * 256 + buf.getD (o + 1) 0

/-- The summation loop of `twoping_checksum` (source lines 48-54): bytes at
even indices contribute `d[i] << 8`, bytes at odd indices contribute `d[i]`
(`if i & 1` is Python truthiness, i.e. `i &&& 1 ≠ 0`). -/
def checksumSum (d : List Nat) : Nat :=
  (List.range d.length).foldl
    (fun checksum i =>
      if i &&& 1 ≠ 0 then checksum + d.getD i 0 else checksum + (d.getD i 0 <<< 8)) 0

/-- One carry fold `checksum = (checksum >> 16) + (checksum & 0xffff)`
(source lines 56-57). -/
def twoping_fold (acc : Nat) : Nat := (acc >>> 16) + (acc &&& 0xffff)

/-- Python `~checksum & 0xffff` (source line 58) for a nonnegative int:
bitwise complement of the arbitrary-precision integer, masked to 16 bits,
i.e. `(-checksum - 1) mod 2 ^ 16`. -/
def pyNotAnd16 (checksum : Nat) : Nat := ((-(checksum : Int) - 1) % 65536).toNat

/-- `twoping_checksum(d)` (source lines 40-63): word sum, double carry fold,
one's complement, and substitution of `0xffff` for a zero result. -/
def twoping_checksum (d : List Nat) : Nat :=
  let c0 := checksumSum d
  let c1 := twoping_fold c0
  let c2 := twoping_fold c1
  let c3 := pyNotAnd16 c2
  if c3 = 0 then 0xffff else c3

/-- State of the embedded fallback generator (source class `MT19937`,
lines 66-111): the 624-word array `mt` and the cursor `index`. -/
structure MT19937 where
  mt : List Nat
  index : Nat

/-- `MT19937._int32(x)` (source lines 67-69): the 32 least significant bits. -/
def MT19937.int32 (x : Nat) : Nat := 0xFFFFFFFF &&& x

/-- `MT19937.__init__(seed)` (source lines 71-78): `index = 624`,
`mt = [0]*624`, `mt[0] = seed`, then for `i` in `1..623`
`mt[i] = _int32(1812433253 * (mt[i-1] ^ mt[i-1] >> 30) + i)`. -/
def MT19937.init (seed : Nat) : MT19937 :=
  let mt0 := (List.replicate 624 0).set 0 seed
  let mt := (List.range' 1 623).foldl
    (fun mt i =>
      mt.set i (MT19937.int32
        (1812433253 * (mt.getD (i - 1) 0 ^^^ (mt.getD (i - 1) 0 >>> 30)) + i))) mt0
  ⟨mt, 624⟩

/-- One iteration of the `twist` loop body (source lines 100-110): update of
`mt[i]` from `mt[i]`, `mt[(i+1) % 624]` and `mt[(i+397) % 624]`, with the
conditional XOR of `0x9908b0df` when the intermediate `y` is odd. -/
def MT19937.twistStep (mt : List Nat) (i : Nat) : List Nat :=
  let y := MT19937.int32
    ((mt.getD i 0 &&& 0x80000000) + (mt.getD ((i + 1) % 624) 0 &&& 0x7fffffff))
  let mt1 := mt.set i (mt.getD ((i + 397) % 624) 0 ^^^ (y >>> 1))
  if y % 2 ≠ 0 then mt1.set i (mt1.getD i 0 ^^^ 0x9908b0df) else mt1

/-- `MT19937.twist()` (source lines 99-111): in-place loop over all 624
indices, then `index = 0`. -/
def MT19937.twist (st : MT19937) : MT19937 :=
  ⟨(List.range 624).foldl MT19937.twistStep st.mt, 0⟩

/-- `MT19937.extract_number()` (source lines 80-97): twist when the cursor
reached 624, temper `mt[index]`, advance the cursor, return `_int32(y)`. -/
def MT19937.extract_number (st : MT19937) : Nat × MT19937 :=
  let st1 := if st.index ≥ 624 then st.twist else st
  let y0 := st1.mt.getD st1.index 0
  let y1 := y0 ^^^ (y0 >>> 11)
  let y2 := y1 ^^^ ((y1 <<< 7) &&& 2636928640)
  let y3 := y2 ^^^ ((y2 <<< 15) &&& 4022730752)
  let y4 := y3 ^^^ (y3 >>> 18)
  (MT19937.int32 y4, ⟨st1.mt, st1.index + 1⟩)

/-- Canonical MT19937 reference, seeding (`init_genrand` of the reference
implementation, per spec §4.2): `mt[0] = seed mod 2^32`, and
`mt[i] = (1812433253 * (mt[i-1] XOR (mt[i-1] >> 30)) + i) mod 2^32`. -/
def refInitGenrand (seed : Nat) : MT19937 :=
  let mt0 := (List.replicate 624 0).set 0 (seed % 4294967296)
  let mt := (List.range' 1 623).foldl
    (fun mt i =>
      mt.set i ((1812433253 * (mt.getD (i - 1) 0 ^^^ (mt.getD (i - 1) 0 >>> 30)) + i) %
        4294967296)) mt0
  ⟨mt, 624⟩

/-- Canonical MT19937 reference, one twist iteration: `y` combines the top
bit of word `i` with the low 31 bits of word `(i+1) mod 624` (bitwise or of
the disjoint masks), and `mt[i]` becomes the word 397 ahead XOR `y >> 1` XOR
the constant selected by the parity of `y` (`mag01[y mod 2]`). -/
def refTwistStep (mt : List Nat) (i : Nat) : List Nat :=
  let y := (mt.getD i 0 &&& 0x80000000) ||| (mt.getD ((i + 1) % 624) 0 &&& 0x7fffffff)
  mt.set i (mt.getD ((i + 397) % 624) 0 ^^^
    ((y >>> 1) ^^^ (if y % 2 = 1 then 0x9908b0df else 0)))

/-- Canonical MT19937 reference, full twist: all 624 indices in order,
cursor reset to 0. -/
def refTwist (st : MT19937) : MT19937 :=
  ⟨(List.range 624).foldl refTwistStep st.mt, 0⟩

/-- Canonical MT19937 reference, extraction (`genrand_int32`): twist when
the cursor reached 624, then the standard tempering transform with the
canonical masks `0x9d2c5680` and `0xefc60000`. -/
def refGenrand (st : MT19937) : Nat × MT19937 :=
  let st1 := if st.index ≥ 624 then refTwist st else st
  let y0 := st1.mt.getD st1.index 0
  let y1 := y0 ^^^ (y0 >>> 11)
  let y2 := y1 ^^^ ((y1 <<< 7) &&& 0x9d2c5680)
  let y3 := y2 ^^^ ((y2 <<< 15) &&& 0xefc60000)
  let y4 := y3 ^^^ (y3 >>> 18)
  (y4, ⟨st1.mt, st1.index + 1⟩)

/-- The list of the first `n` values produced by repeatedly applying the
extraction function `f`, together with the final generator state. -/
def streamN (f : MT19937 → Nat × MT19937) (st : MT19937) : Nat → List Nat × MT19937
  | 0 => ([], st)
  | Nat.succ n =>
    let p := f st
    let q := streamN f p.2 n
    (p.1 :: q.1, q.2)

/-- Every array entry of the generator state is a 32-bit word. -/
def mtBounded (st : MT19937) : Prop := ∀ x ∈ st.mt, x < 4294967296

/-- Python `struct.pack('!I', v)` for a 32-bit `v`: four big-endian bytes
(`mturandom` only packs `extract_number` results, which are `_int32` masked,
so the out-of-range `struct.error` case cannot arise). -/
def packI (v : Nat) : List Nat :=
  [v / 16777216 % 256, v / 65536 % 256, v / 256 % 256, v % 256]

/-- Python `struct.pack('!H', v)` for a 16-bit `v`: two big-endian bytes
(`mturandom` masks the argument with `% 65536` before packing, so the
out-of-range `struct.error` case cannot arise). -/
def packH2 (v : Nat) : List Nat := [v / 256 % 256, v % 256]

/-- `TwoPingMicro.mturandom(b)` (source lines 155-168), with the generator
state passed explicitly (the source lazily seeds `self._mt` from the clock
on first use; the claims are about a given generator stream).  `int(b / 4)`
is `⌊b / 4⌋`; `out[-k:] = repl` replaces the trailing `k` bytes; the
`remainder == 2` branch packs `extract_number() % 65536` and the
`remainder == 1` branch packs `extract_number() % 256`, as in the source. -/
def mturandom (st : MT19937) (b : Nat) : List Nat × MT19937 :=
  let out := List.replicate b 0
  let p := (List.range (b / 4)).foldl
    (fun (p : List Nat × MT19937) i =>
      let q := p.2.extract_number
      (setSlice p.1 (i * 4) (i * 4 + 4) (packI q.1), q.2)) (out, st)
  let remainder := b % 4
  if remainder = 3 then
    let q := p.2.extract_number
    (p.1.take (p.1.length - 3) ++ (packI q.1).drop 1, q.2)
  else if remainder = 2 then
    let q := p.2.extract_number
    (p.1.take (p.1.length - 2) ++ packH2 (q.1 % 65536), q.2)
  else if remainder = 1 then
    let q := p.2.extract_number
    (p.1.take (p.1.length - 1) ++ [q.1 % 256], q.2)
  else p

/-- Big-endian serialization of a word list, four bytes per word. -/
def wordsToBytes : List Nat → List Nat
  | [] => []
  | w :: ws => packI w ++ wordsToBytes ws

/-- The byte-generation procedure as the spec words it (§4.2): extract
`⌊n/4⌋` words serialized big-endian to cover the full 4-byte groups, then,
when `n mod 4 ≠ 0`, extract one more word and take its trailing `n mod 4`
bytes. -/
def mturandomSpec (st : MT19937) (n : Nat) : List Nat × MT19937 :=
  let p := streamN MT19937.extract_number st (n / 4)
  if n % 4 = 0 then (wordsToBytes p.1, p.2)
  else
    let q := p.2.extract_number
    (wordsToBytes p.1 ++ (packI q.1).drop (4 - n % 4), q.2)

/-- The default configured banner, `program_version = b'2ping MicroPython'`
(source line 119). -/
def program_version : List Nat :=
  [0x32, 0x70, 0x69, 0x6e, 0x67, 0x20, 0x4d, 0x69, 0x63, 0x72, 0x6f, 0x50,
   0x79, 0x74, 0x68, 0x6f, 0x6e]

/-- `TwoPingMicro.__init__(config)` (source lines 130-153): copies the
configuration attributes onto the instance and selects the entropy source
(`os.urandom` when available, `mturandom` otherwise).  No validation of the
configured banner is performed anywhere in the constructor, so construction
always succeeds with the configured banner; `none` (never produced) would
mark a rejected configuration.  (The LED wiring of lines 143-153 is hardware
I/O with no bearing on the protocol engine.) -/
def twoPingInit (banner : List Nat) : Option (List Nat) := some banner

/-- Reply construction, `parse_packet` lines 206-233: zero the reusable
reply buffer `prev` (`_reply_packet`), write magic, the fresh
`reply_message_id` (`self.urandom(6)`), the opcode flags `0x80 0x02`, the
In-Reply-To block (length 6 plus the inbound `message_id`), the Extended
block (`bytes([0x00, 4+2+len(banner)])`, the `0x3250564e` tag,
`bytes([0x00, len(banner)])`, the banner), then checksum the populated
buffer and pack the result into offsets 2-3. -/
def buildReply (reply_message_id message_id banner prev : List Nat) :
    Except Unit (List Nat) :=
  let rp0 := List.replicate prev.length 0
  let rp1 := setSlice rp0 0 2 [0x32, 0x50]
  let rp2 := setSlice rp1 4 10 reply_message_id
  let rp3 := setSlice rp2 10 12 [0x80, 0x02]
  let rp4 := setSlice rp3 12 14 [0x00, 0x06]
  let rp5 := setSlice rp4 14 20 message_id
  match mkBytes2 0x00 (4 + 2 + banner.length) with
  | .error e => .error e
  | .ok b1 =>
    let rp6 := setSlice rp5 20 22 b1
    let rp7 := setSlice rp6 22 26 [0x32, 0x50, 0x56, 0x4e]
    match mkBytes2 0x00 banner.length with
    | .error e => .error e
    | .ok b2 =>
      let rp8 := setSlice rp7 26 28 b2
      let rp9 := setSlice rp8 28 (28 + banner.length) banner
      pack_into_H rp9 2 (twoping_checksum rp9)

/-- `parse_packet` past the validation guards (source lines 189-233):
extract `message_id = packet[4:10]`, read `opcode_flags` at offset 10
(raising when the packet is shorter than 12 bytes), return without reply
when bit 0 is clear, otherwise build the reply. -/
def parseAccepted (reply_message_id banner prev packet : List Nat) :
    Except Unit (Option (List Nat)) :=
  let message_id := (packet.drop 4).take 6
  match unpack_from_H packet 10 with
  | .error e => .error e
  | .ok opcode_flags =>
    if opcode_flags &&& 0x0001 = 0 then .ok none
    else
      match buildReply reply_message_id message_id banner prev with
      | .error e => .error e
      | .ok r => .ok (some r)

/-- `TwoPingMicro.parse_packet(packet)` (source lines 170-233), with the
fresh reply id (`self.urandom(6)`), the configured banner and the current
reply buffer passed explicitly.  `.error ()` is a raised exception
(`struct.error`, which `run()` re-raises to its caller via the bare `raise`
on line 253), `.ok none` a silent discard (bare `return`), `.ok (some r)` a
produced reply.  The checksum is re-verified over
`b'\x32\x50\x00\x00' + packet[4:]` exactly as on source line 181. -/
def parsePacket (reply_message_id banner prev packet : List Nat) :
    Except Unit (Option (List Nat)) :=
  if packet.take 2 ≠ [0x32, 0x50] then .ok none
  else
    match unpack_from_H packet 2 with
    | .error e => .error e
    | .ok packet_checksum =>
      if packet_checksum ≠ 0 then
        if twoping_checksum ([0x32, 0x50, 0x00, 0x00] ++ packet.drop 4) ≠
            packet_checksum then
          .ok none
        else parseAccepted reply_message_id banner prev packet
      else parseAccepted reply_message_id banner prev packet

/-- The contents of the reply buffer just before the checksum is written,
for a banner of at most 100 bytes: the populated fields followed by the
untouched zero tail. -/
def replyBody (rid mid banner : List Nat) : List Nat :=
  [0x32, 0x50, 0x00, 0x00] ++ (rid ++ ([0x80, 0x02, 0x00, 0x06] ++ (mid ++
    ([0x00, 4 + 2 + banner.length] ++ ([0x32, 0x50, 0x56, 0x4e] ++
      ([0x00, banner.length] ++
        (banner ++ List.replicate (100 - banner.length) 0)))))))

/-- A datagram that passes the decoder's validation guards: magic matches,
the full 12-byte fixed header is present, and the checksum field is zero or
verifies over the field-zeroed datagram. -/
def acceptedPacket (p : List Nat) : Prop :=
  p.take 2 = [0x32, 0x50] ∧ 12 ≤ p.length ∧
    (readH p 2 = 0 ∨
      twoping_checksum ([0x32, 0x50, 0x00, 0x00] ++ p.drop 4) = readH p 2)

instance acceptedPacket.dec (p : List Nat) : Decidable (acceptedPacket p) := by
  unfold acceptedPacket
  exact inferInstance

/-- Whether a decode outcome carries a reply to transmit. -/
def producesReply (res : Except Unit (Option (List Nat))) : Bool :=
  match res with
  | .ok (some _) => true
  | _ => false

/-- Round-trip self-consistency of a decode outcome: any produced reply's
checksum field matches the checksum recomputed over the reply with the
field zeroed. -/
def replyChecksumOk (res : Except Unit (Option (List Nat))) : Prop :=
  ∀ r, res = .ok (some r) →
    twoping_checksum (setSlice r 2 4 [0x00, 0x00]) = readH r 2

/-- The reply layout of claim C6, as a property of a decode outcome: any
produced reply carries the magic, the `0x8002` flags, the In-Reply-To block
echoing the inbound `message_id`, and the Extended block with the banner. -/
def replyFieldsOk (packet banner : List Nat)
    (res : Except Unit (Option (List Nat))) : Prop :=
  ∀ r, res = .ok (some r) →
    r.take 2 = [0x32, 0x50] ∧
    r.getD 10 0 = 0x80 ∧ r.getD 11 0 = 0x02 ∧
    readH r 12 = 6 ∧
    (r.drop 14).take 6 = (packet.drop 4).take 6 ∧
    readH r 20 = 4 + 2 + banner.length ∧
    (r.drop 22).take 4 = [0x32, 0x50, 0x56, 0x4e] ∧
    readH r 26 = banner.length ∧
    (r.drop 28).take banner.length = banner

/-- The frame property of claim C10, as a property of an encode outcome:
any produced buffer is exactly 128 bytes and all bytes from offset
`28 + len(banner)` to 127 are zero. -/
def replyFrameOk (banner : List Nat) (res : Except Unit (List Nat)) : Prop :=
  ∀ r, res = .ok r →
    r.length = 128 ∧ ∀ i, 28 + banner.length ≤ i → i < 128 → r.getD i 0 = 0

lemma pyNotAnd16_eq (c : Nat) : pyNotAnd16 c = 65535 - c % 65536 := by
  unfold pyNotAnd16
  omega

lemma twoping_fold_eq (acc : Nat) : twoping_fold acc = acc / 65536 + acc % 65536 := by
  unfold twoping_fold
  rw [Nat.shiftRight_eq_div_pow]
  have h : (0xffff : Nat) = 2 ^ 16 - 1 := by norm_num
  rw [h, Nat.and_pow_two_sub_one_eq_mod]

/-- The byte-summation loop is bounded by `0xff00` per processed index when
every element of `d` is a byte. -/
lemma checksumSum_le (d : List Nat) (hd : ∀ x ∈ d, x < 256) :
    checksumSum d ≤ 65280 * d.length := by
  unfold checksumSum
  have key : ∀ (idxs : List Nat) (acc : Nat),
      idxs.foldl (fun checksum i =>
        if i &&& 1 ≠ 0 then checksum + d.getD i 0 else checksum + (d.getD i 0 <<< 8)) acc ≤
      acc + 65280 * idxs.length := by
    intro idxs
    induction idxs with
    | nil => simp
    | cons i rest ih =>
      intro acc
      have hbyte : d.getD i 0 ≤ 255 := by
        rcases Nat.lt_or_ge i d.length with hlt | hge
        · have := hd (d.getD i 0) (by
            rw [List.getD_eq_getElem?_getD, List.getElem?_eq_getElem hlt]
            exact List.getElem_mem hlt)
          omega
        · rw [List.getD_eq_getElem?_getD, List.getElem?_eq_none hge]
          simp
      have hstep : (if i &&& 1 ≠ 0 then acc + d.getD i 0 else acc + (d.getD i 0 <<< 8)) ≤
          acc + 65280 := by
        have hsh : d.getD i 0 <<< 8 = d.getD i 0 * 256 := by
          rw [Nat.shiftLeft_eq]
        split <;> omega
      calc List.foldl _ (if i &&& 1 ≠ 0 then acc + d.getD i 0 else acc + (d.getD i 0 <<< 8)) rest
      _ ≤ (if i &&& 1 ≠ 0 then acc + d.getD i 0 else acc + (d.getD i 0 <<< 8)) +
          65280 * rest.length := ih _
      _ ≤ acc + 65280 + 65280 * rest.length := by omega
      _ = acc + 65280 * (rest.length + 1) := by ring
      _ = acc + 65280 * (i :: rest).length := by simp
  have := key (List.range d.length) 0
  simpa using this

/-- The result of `twoping_checksum` always lies in `[1, 0xffff]`
(the final `& 0xffff` and the zero substitution cap it unconditionally). -/
lemma twoping_checksum_range (d : List Nat) :
    1 ≤ twoping_checksum d ∧ twoping_checksum d ≤ 65535 := by
  simp only [twoping_checksum]
  rw [pyNotAnd16_eq]
  split <;> omega

/-- Claim C3: for every byte buffer shorter than 64KiB the double carry fold
converges to a 16-bit value and `twoping_checksum` returns a value in
`[1, 0xffff]`, never `0`. -/
theorem C3_checksum_domain (d : List Nat) (hd : ∀ x ∈ d, x < 256)
    (hlen : d.length < 65536) :
    twoping_fold (twoping_fold (checksumSum d)) < 65536 ∧
    1 ≤ twoping_checksum d ∧ twoping_checksum d ≤ 0xffff := by
  refine ⟨?_, twoping_checksum_range d⟩
  have hsum : checksumSum d < 4294967296 := by
    have h1 := checksumSum_le d hd
    have h2 : 65280 * d.length ≤ 65280 * 65535 := by
      apply Nat.mul_le_mul_left
      omega
    omega
  rw [twoping_fold_eq, twoping_fold_eq]
  omega

lemma int32_eq_mod (x : Nat) : MT19937.int32 x = x % 4294967296 := by
  unfold MT19937.int32
  rw [Nat.and_comm]
  have h : (0xFFFFFFFF : Nat) = 2 ^ 32 - 1 := by norm_num
  rw [h, Nat.and_pow_two_sub_one_eq_mod]

lemma int32_of_lt {x : Nat} (h : x < 4294967296) : MT19937.int32 x = x := by
  rw [int32_eq_mod, Nat.mod_eq_of_lt h]

/-- A power of two plus a smaller number is their bitwise or. -/
lemma two_pow_add_eq_or {i x : Nat} (h : x < 2 ^ i) : 2 ^ i + x = 2 ^ i ||| x := by
  apply Nat.eq_of_testBit_eq
  intro j
  rw [Nat.testBit_lor]
  rcases Nat.lt_trichotomy j i with hj | hj | hj
  · rw [Nat.testBit_two_pow_add_gt hj, Nat.testBit_two_pow_of_ne (Nat.ne_of_gt hj)]
    simp
  · subst hj
    rw [Nat.testBit_two_pow_add_eq, Nat.testBit_two_pow_self,
      Nat.testBit_eq_false_of_lt h]
    simp
  · have h1 : 2 ^ i + x < 2 ^ j := by
      have : 2 ^ (i + 1) ≤ 2 ^ j := Nat.pow_le_pow_right (by norm_num) hj
      have := Nat.pow_succ 2 i
      omega
    rw [Nat.testBit_eq_false_of_lt h1, Nat.testBit_two_pow_of_ne (Nat.ne_of_lt hj),
      Nat.testBit_eq_false_of_lt (by omega : x < 2 ^ j)]
    simp

/-- The two disjoint mask extractions of the twist combine identically by
addition (source) and bitwise or (reference). -/
lemma twist_masks_add_eq_or (a b : Nat) :
    (a &&& 0x80000000) + (b &&& 0x7fffffff) = (a &&& 0x80000000) ||| (b &&& 0x7fffffff) := by
  have h31 : (0x80000000 : Nat) = 2 ^ 31 := by norm_num
  have hlo : b &&& 0x7fffffff = b % 2 ^ 31 := by
    have h : (0x7fffffff : Nat) = 2 ^ 31 - 1 := by norm_num
    rw [h, Nat.and_pow_two_sub_one_eq_mod]
  have hhi := Nat.and_two_pow a 31
  rw [h31] at *
  cases hb : a.testBit 31 with
  | false =>
    rw [hhi, hb]
    simp
  | true =>
    rw [hhi, hb] at *
    simp only [Bool.toNat_true, Nat.one_mul] at *
    exact two_pow_add_eq_or (by rw [hlo]; exact Nat.mod_lt _ (by positivity))

lemma twist_masks_lt (a b : Nat) :
    (a &&& 0x80000000) ||| (b &&& 0x7fffffff) < 4294967296 := by
  rw [← twist_masks_add_eq_or]
  have h1 : a &&& 0x80000000 ≤ 0x80000000 := Nat.and_le_right
  have h2 : b &&& 0x7fffffff ≤ 0x7fffffff := Nat.and_le_right
  omega

lemma getD_set_self {l : List Nat} {i : Nat} {v : Nat} (h : i < l.length) :
    (l.set i v).getD i 0 = v := by
  rw [List.getD_eq_getElem?_getD, List.getElem?_set_self (by simpa using h)]
  rfl

/-- The source twist body and the reference twist body agree. -/
lemma twistStep_eq : MT19937.twistStep = refTwistStep := by
  funext mt i
  have hy : MT19937.int32
      ((mt.getD i 0 &&& 0x80000000) + (mt.getD ((i + 1) % 624) 0 &&& 0x7fffffff)) =
      (mt.getD i 0 &&& 0x80000000) ||| (mt.getD ((i + 1) % 624) 0 &&& 0x7fffffff) := by
    rw [twist_masks_add_eq_or, int32_of_lt (twist_masks_lt _ _)]
  simp only [MT19937.twistStep, refTwistStep, hy]
  by_cases hpar :
    ((mt.getD i 0 &&& 0x80000000) ||| (mt.getD ((i + 1) % 624) 0 &&& 0x7fffffff)) % 2 = 0
  · rw [if_neg (by omega), if_neg (by omega), Nat.xor_zero]
  · rw [if_pos hpar, if_pos (by omega)]
    rcases Nat.lt_or_ge i mt.length with hi | hi
    · rw [getD_set_self hi, List.set_set, Nat.xor_assoc]
    · simp only [List.set_eq_of_length_le hi]

lemma twist_eq : MT19937.twist = refTwist := by
  funext st
  unfold MT19937.twist refTwist
  rw [twistStep_eq]

lemma getD_lt_of_bounded {l : List Nat} (h : ∀ x ∈ l, x < 4294967296) (i : Nat) :
    l.getD i 0 < 4294967296 := by
  rcases Nat.lt_or_ge i l.length with hi | hi
  · apply h
    rw [List.getD_eq_getElem?_getD, List.getElem?_eq_getElem hi]
    exact List.getElem_mem hi
  · rw [List.getD_eq_getElem?_getD, List.getElem?_eq_none hi]
    norm_num

lemma bounded_set {l : List Nat} {v i : Nat} (h : ∀ x ∈ l, x < 4294967296)
    (hv : v < 4294967296) : ∀ x ∈ l.set i v, x < 4294967296 := by
  intro x hx
  rcases List.mem_or_eq_of_mem_set hx with hx' | hx'
  · exact h x hx'
  · omega

lemma bounded_twistStep {mt : List Nat} (h : ∀ x ∈ mt, x < 4294967296) (i : Nat) :
    ∀ x ∈ MT19937.twistStep mt i, x < 4294967296 := by
  simp only [MT19937.twistStep]
  have hy : MT19937.int32
      ((mt.getD i 0 &&& 0x80000000) + (mt.getD ((i + 1) % 624) 0 &&& 0x7fffffff)) <
      4294967296 := by
    rw [int32_eq_mod]
    exact Nat.mod_lt _ (by positivity)
  have h32 : (4294967296 : Nat) = 2 ^ 32 := by norm_num
  have hstep1 : ∀ x ∈ mt.set i (mt.getD ((i + 397) % 624) 0 ^^^
      (MT19937.int32 ((mt.getD i 0 &&& 0x80000000) +
        (mt.getD ((i + 1) % 624) 0 &&& 0x7fffffff)) >>> 1)), x < 4294967296 := by
    apply bounded_set h
    rw [h32]
    apply Nat.xor_lt_two_pow
    · rw [← h32]; exact getD_lt_of_bounded h _
    · rw [← h32]
      calc MT19937.int32 _ >>> 1 ≤ MT19937.int32 _ := by
            rw [Nat.shiftRight_eq_div_pow]; exact Nat.div_le_self _ _
      _ < 4294967296 := hy
  intro x hx
  by_cases hpar : MT19937.int32
      ((mt.getD i 0 &&& 0x80000000) + (mt.getD ((i + 1) % 624) 0 &&& 0x7fffffff)) % 2 ≠ 0
  · rw [if_pos hpar] at hx
    revert x hx
    apply bounded_set hstep1
    rw [h32]
    apply Nat.xor_lt_two_pow
    · rw [← h32]; exact getD_lt_of_bounded hstep1 _
    · norm_num
  · rw [if_neg hpar] at hx
    exact hstep1 x hx

lemma bounded_foldl {f : List Nat → Nat → List Nat}
    (hf : ∀ mt i, (∀ x ∈ mt, x < 4294967296) → ∀ x ∈ f mt i, x < 4294967296) :
    ∀ (idxs : List Nat) (mt : List Nat), (∀ x ∈ mt, x < 4294967296) →
      ∀ x ∈ idxs.foldl f mt, x < 4294967296 := by
  intro idxs
  induction idxs with
  | nil => intro mt h; simpa using h
  | cons i rest ih => intro mt h; exact ih _ (hf mt i h)

lemma bounded_twist {st : MT19937} (h : mtBounded st) : mtBounded st.twist := by
  have hfold := bounded_foldl (fun mt i hmt => bounded_twistStep hmt i) (List.range 624) st.mt h
  simpa [mtBounded, MT19937.twist] using hfold

lemma bounded_extract {st : MT19937} (h : mtBounded st) :
    mtBounded st.extract_number.2 := by
  unfold mtBounded MT19937.extract_number
  by_cases hidx : st.index ≥ 624
  · simp only [if_pos hidx]
    exact bounded_twist h
  · simp only [if_neg hidx]
    exact h

/-- The full tempered value already fits 32 bits, so the source's final
`_int32` mask is the identity. -/
lemma temper_int32 {y0 y1 y2 y3 : Nat} (h0 : y0 < 4294967296)
    (h1 : y1 = y0 ^^^ (y0 >>> 11)) (h2 : y2 = y1 ^^^ ((y1 <<< 7) &&& 2636928640))
    (h3 : y3 = y2 ^^^ ((y2 <<< 15) &&& 4022730752)) :
    MT19937.int32 (y3 ^^^ (y3 >>> 18)) = y3 ^^^ (y3 >>> 18) := by
  have h32 : (4294967296 : Nat) = 2 ^ 32 := by norm_num
  have hy1 : y1 < 4294967296 := by
    rw [h1, h32]
    apply Nat.xor_lt_two_pow (by rw [← h32]; exact h0)
    rw [← h32, Nat.shiftRight_eq_div_pow]
    exact Nat.lt_of_le_of_lt (Nat.div_le_self _ _) h0
  have hy2 : y2 < 4294967296 := by
    rw [h2, h32]
    apply Nat.xor_lt_two_pow (by rw [← h32]; exact hy1)
    rw [← h32]
    exact Nat.lt_of_le_of_lt Nat.and_le_right (by norm_num)
  have hy3 : y3 < 4294967296 := by
    rw [h3, h32]
    apply Nat.xor_lt_two_pow (by rw [← h32]; exact hy2)
    rw [← h32]
    exact Nat.lt_of_le_of_lt Nat.and_le_right (by norm_num)
  apply int32_of_lt
  rw [h32]
  apply Nat.xor_lt_two_pow (by rw [← h32]; exact hy3)
  rw [← h32, Nat.shiftRight_eq_div_pow]
  exact Nat.lt_of_le_of_lt (Nat.div_le_self _ _) hy3

/-- The source extraction and the reference extraction agree on states with
32-bit entries. -/
lemma extract_eq {st : MT19937} (h : mtBounded st) :
    st.extract_number = refGenrand st := by
  by_cases hidx : st.index ≥ 624
  · have hb1 : mtBounded (refTwist st) := by
      rw [← twist_eq]
      exact bounded_twist h
    simp only [MT19937.extract_number, refGenrand, if_pos hidx, twist_eq]
    rw [temper_int32 (getD_lt_of_bounded hb1 _) rfl rfl rfl]
  · simp only [MT19937.extract_number, refGenrand, if_neg hidx]
    rw [temper_int32 (getD_lt_of_bounded h _) rfl rfl rfl]

/-- The source seeding and the reference seeding agree for 32-bit seeds. -/
lemma init_eq {seed : Nat} (h : seed < 4294967296) :
    MT19937.init seed = refInitGenrand seed := by
  unfold MT19937.init refInitGenrand
  rw [Nat.mod_eq_of_lt h]
  have hstep : (fun (mt : List Nat) (i : Nat) =>
      mt.set i (MT19937.int32
        (1812433253 * (mt.getD (i - 1) 0 ^^^ (mt.getD (i - 1) 0 >>> 30)) + i))) =
      (fun (mt : List Nat) (i : Nat) =>
        mt.set i ((1812433253 * (mt.getD (i - 1) 0 ^^^ (mt.getD (i - 1) 0 >>> 30)) + i) %
          4294967296)) := by
    funext mt i
    rw [int32_eq_mod]
  rw [hstep]

lemma bounded_init {seed : Nat} (h : seed < 4294967296) :
    mtBounded (MT19937.init seed) := by
  unfold mtBounded MT19937.init
  apply bounded_foldl
  · intro mt i hmt
    apply bounded_set hmt
    rw [int32_eq_mod]
    exact Nat.mod_lt _ (by positivity)
  · apply bounded_set _ h
    intro x hx
    rw [List.eq_of_mem_replicate hx]
    positivity

/-- Streams of the source extraction and the reference extraction agree from
any common state with 32-bit entries. -/
lemma streamN_eq {st : MT19937} (h : mtBounded st) (n : Nat) :
    streamN MT19937.extract_number st n = streamN refGenrand st n := by
  induction n generalizing st with
  | zero => rfl
  | succ n ih =>
    simp only [streamN]
    rw [extract_eq h, ih (by rw [← extract_eq h]; exact bounded_extract h)]

/-- Claim C1: for every 32-bit seed, the embedded fallback generator
(seeding recurrence, twist at cursor 624, tempering in `extract_number`)
produces exactly the same sequence of extracted 32-bit words as the
canonical MT19937 reference algorithm. -/
theorem C1_mt19937_matches_reference (seed n : Nat) (h : seed < 4294967296) :
    (streamN MT19937.extract_number (MT19937.init seed) n).1 =
    (streamN refGenrand (refInitGenrand seed) n).1 := by
  rw [← init_eq h, streamN_eq (bounded_init h)]

/-- Witness for C1 at seed 5. -/
theorem C1_mt19937_matches_reference_witness :
    5 < 4294967296 ∧
    (streamN MT19937.extract_number (MT19937.init 5) 2).1 =
    (streamN refGenrand (refInitGenrand 5) 2).1 :=
  ⟨by norm_num, C1_mt19937_matches_reference 5 2 (by norm_num)⟩

lemma drop_replicate (k m : Nat) :
    (List.replicate m (0 : Nat)).drop k = List.replicate (m - k) 0 := by
  induction m generalizing k with
  | zero => simp
  | succ m ih =>
    cases k with
    | zero => simp
    | succ k =>
      rw [List.replicate_succ, List.drop_succ_cons, ih k]
      congr 1
      omega

lemma drop_append_of_length {l1 l2 : List Nat} {n k : Nat} (h : l1.length = n) :
    (l1 ++ l2).drop (n + k) = l2.drop k := by
  subst h
  rw [← List.drop_drop, List.drop_left]

lemma wordsToBytes_append (ws : List Nat) (w : Nat) :
    wordsToBytes (ws ++ [w]) = wordsToBytes ws ++ packI w := by
  induction ws with
  | nil => simp [wordsToBytes]
  | cons v vs ih => simp [wordsToBytes, ih]

lemma wordsToBytes_length (ws : List Nat) : (wordsToBytes ws).length = 4 * ws.length := by
  induction ws with
  | nil => rfl
  | cons v vs ih => simp [wordsToBytes, packI, ih]; ring

lemma streamN_snoc (f : MT19937 → Nat × MT19937) (st : MT19937) (n : Nat) :
    streamN f st (n + 1) =
      ((streamN f st n).1 ++ [(f (streamN f st n).2).1], (f (streamN f st n).2).2) := by
  induction n generalizing st with
  | zero => simp [streamN]
  | succ n ih =>
    rw [streamN]
    rw [ih (f st).2]
    simp [streamN]

lemma streamN_length (f : MT19937 → Nat × MT19937) (st : MT19937) (n : Nat) :
    (streamN f st n).1.length = n := by
  induction n generalizing st with
  | zero => rfl
  | succ n ih => simp [streamN, ih]

/-- Closed form of the main `mturandom` loop: after `j` iterations the
buffer holds the serialization of the first `j` extracted words followed by
the untouched zero tail, and the generator has advanced `j` words. -/
lemma mturandom_loop_eq (st : MT19937) (n : Nat) :
    ∀ j, j * 4 ≤ n →
    (List.range j).foldl
      (fun (p : List Nat × MT19937) i =>
        (setSlice p.1 (i * 4) (i * 4 + 4) (packI p.2.extract_number.1),
          p.2.extract_number.2))
      (List.replicate n 0, st) =
    (wordsToBytes (streamN MT19937.extract_number st j).1 ++ List.replicate (n - j * 4) 0,
      (streamN MT19937.extract_number st j).2) := by
  intro j
  induction j with
  | zero => simp [streamN, wordsToBytes]
  | succ j ih =>
    intro hj
    rw [List.range_succ, List.foldl_append, ih (by omega)]
    have hlen : (wordsToBytes (streamN MT19937.extract_number st j).1).length = j * 4 := by
      rw [wordsToBytes_length, streamN_length]; ring
    simp only [List.foldl_cons, List.foldl_nil, setSlice]
    rw [List.take_left' hlen]
    have hdrop : (wordsToBytes (streamN MT19937.extract_number st j).1 ++
        List.replicate (n - j * 4) 0).drop (j * 4 + 4) =
        List.replicate (n - (j + 1) * 4) 0 := by
      rw [drop_append_of_length hlen, drop_replicate]
      congr 1
      omega
    rw [hdrop, streamN_snoc, wordsToBytes_append]

lemma packH2_eq_drop2 (w : Nat) : packH2 (w % 65536) = (packI w).drop 2 := by
  have h1 : w % 65536 / 256 % 256 = w / 256 % 256 := by omega
  have h2 : w % 65536 % 256 = w % 256 := by omega
  simp [packH2, packI, h1, h2]

lemma packI_drop3 (w : Nat) : (packI w).drop 3 = [w % 256] := rfl

/-- Claim C8: `mturandom(n)` returns exactly `n` bytes — `⌊n/4⌋` big-endian
words for the full groups and the trailing `n mod 4` bytes of one extra
word when `n mod 4 ≠ 0` — consuming exactly
`⌊n/4⌋ + (1 if n mod 4 ≠ 0 else 0)` words of the PRNG stream. -/
theorem C8_mturandom_bytes (st : MT19937) (n : Nat) :
    (mturandom st n).1.length = n ∧
    mturandom st n = mturandomSpec st n ∧
    (mturandom st n).2 =
      (streamN MT19937.extract_number st
        (n / 4 + if n % 4 = 0 then 0 else 1)).2 := by
  have hloop := mturandom_loop_eq st n (n / 4) (by omega)
  have hbase : (wordsToBytes (streamN MT19937.extract_number st (n / 4)).1).length =
      n / 4 * 4 := by
    rw [wordsToBytes_length, streamN_length]; ring
  have hmain : mturandom st n = mturandomSpec st n := by
    simp only [mturandom, mturandomSpec]
    rw [hloop]
    rcases (by omega : n % 4 = 0 ∨ n % 4 = 1 ∨ n % 4 = 2 ∨ n % 4 = 3) with hr | hr | hr | hr
    · rw [hr]
      have hz : n - n / 4 * 4 = 0 := by omega
      rw [hz]
      norm_num
    · rw [hr]
      have hz : n - n / 4 * 4 = 1 := by omega
      rw [hz]
      norm_num
      rw [packI_drop3]
    · rw [hr]
      have hz : n - n / 4 * 4 = 2 := by omega
      rw [hz]
      norm_num
      rw [packH2_eq_drop2]
    · rw [hr]
      have hz : n - n / 4 * 4 = 3 := by omega
      rw [hz]
      norm_num
  refine ⟨?_, hmain, ?_⟩
  · rw [hmain]
    simp only [mturandomSpec]
    by_cases hr : n % 4 = 0
    · rw [if_pos hr, hbase]
      omega
    · rw [if_neg hr]
      have h4 : n % 4 < 4 := Nat.mod_lt _ (by norm_num)
      simp only [List.length_append, hbase, packI, List.length_drop, List.length_cons,
        List.length_nil]
      omega
  · rw [hmain]
    simp only [mturandomSpec]
    by_cases hr : n % 4 = 0
    · rw [if_pos hr, if_pos hr]
      simp
    · rw [if_neg hr, if_neg hr, streamN_snoc]

/-- Witness for C3 at a concrete three-byte buffer. -/
theorem C3_checksum_domain_witness :
    (∀ x ∈ [0x32, 0x50, 0x01], x < 256) ∧
    twoping_fold (twoping_fold (checksumSum [0x32, 0x50, 0x01])) < 65536 ∧
    1 ≤ twoping_checksum [0x32, 0x50, 0x01] ∧
    twoping_checksum [0x32, 0x50, 0x01] ≤ 0xffff :=
  ⟨by decide, C3_checksum_domain [0x32, 0x50, 0x01] (by decide) (by decide)⟩

lemma getD_drop_add (l : List Nat) (n k : Nat) :
    l.getD (n + k) 0 = (l.drop n).getD k 0 := by
  induction n generalizing l with
  | zero => simp
  | succ n ih =>
    cases l with
    | nil => simp
    | cons a t =>
      rw [List.drop_succ_cons, ← ih]
      rw [show n + 1 + k = (n + k) + 1 from by omega, List.getD_cons_succ]

lemma getD_replicate_zero (m k : Nat) : (List.replicate m (0 : Nat)).getD k 0 = 0 := by
  rw [List.getD_eq_getElem?_getD, List.getElem?_replicate]
  split <;> rfl

lemma getD_take2 {r : List Nat} {o x y : Nat} (h : (r.drop o).take 2 = [x, y]) :
    r.getD o 0 = x ∧ r.getD (o + 1) 0 = y := by
  have h0 : (r.drop o).getD 0 0 = x := by
    rw [List.getD_eq_getElem?_getD, ← List.getElem?_take_of_lt (show 0 < 2 by norm_num), h]
    rfl
  have h1 : (r.drop o).getD 1 0 = y := by
    rw [List.getD_eq_getElem?_getD, ← List.getElem?_take_of_lt (show 1 < 2 by norm_num), h]
    rfl
  constructor
  · have h2 : r.getD (o + 0) 0 = x := by rw [getD_drop_add, h0]
    simpa using h2
  · rw [getD_drop_add, h1]

lemma readH_of_drop {r : List Nat} {o x y : Nat} (h : (r.drop o).take 2 = [x, y]) :
    readH r o = x * 256 + y := by
  obtain ⟨h0, h1⟩ := getD_take2 h
  unfold readH
  rw [h0, h1]

lemma setSlice_append {A Q repl : List Nat} {s t k : Nat} (hA : A.length = s)
    (ht : t = s + k) : setSlice (A ++ Q) s t repl = (A ++ repl) ++ Q.drop k := by
  subst ht
  unfold setSlice
  rw [List.take_left' hA, drop_append_of_length hA]

lemma unpack_ok_length {p : List Nat} {o v : Nat} (h : unpack_from_H p o = .ok v) :
    o + 2 ≤ p.length := by
  unfold unpack_from_H at h
  split at h
  · assumption
  · exact absurd h (by simp)

lemma unpack_eq {p : List Nat} {o : Nat} (h : o + 2 ≤ p.length) :
    unpack_from_H p o = .ok (readH p o) := by
  unfold unpack_from_H readH
  rw [if_pos h]

/-- `buildReply` under a valid configuration: the buffer it checksums is
exactly `replyBody`, and the result is that body with the two checksum bytes
packed into offsets 2-3. -/
lemma buildReply_eq (rid mid banner prev : List Nat) (hrid : rid.length = 6)
    (hmid : mid.length = 6) (hban : banner.length ≤ 100) (hprev : prev.length = 128) :
    buildReply rid mid banner prev =
      .ok (setSlice (replyBody rid mid banner) 2 4
        [twoping_checksum (replyBody rid mid banner) / 256,
         twoping_checksum (replyBody rid mid banner) % 256]) := by
  have hb1 : mkBytes2 0x00 (4 + 2 + banner.length) = .ok [0x00, 4 + 2 + banner.length] := by
    unfold mkBytes2
    rw [if_pos]
    exact ⟨by norm_num, by omega⟩
  have hb2 : mkBytes2 0x00 banner.length = .ok [0x00, banner.length] := by
    unfold mkBytes2
    rw [if_pos]
    exact ⟨by norm_num, by omega⟩
  have s1 : setSlice (List.replicate 128 (0 : Nat)) 0 2 [0x32, 0x50] =
      [0x32, 0x50, 0x00, 0x00] ++ List.replicate 124 0 := rfl
  have s2 : setSlice ([0x32, 0x50, 0x00, 0x00] ++ List.replicate 124 0) 4 10 rid =
      ([0x32, 0x50, 0x00, 0x00] ++ rid) ++ List.replicate 118 0 := by
    rw [setSlice_append (show ([0x32, 0x50, 0x00, 0x00] : List Nat).length = 4 by norm_num)
      (by norm_num : (10 : Nat) = 4 + 6), drop_replicate]
  have s3 : setSlice (([0x32, 0x50, 0x00, 0x00] ++ rid) ++ List.replicate 118 0)
      10 12 [0x80, 0x02] =
      (([0x32, 0x50, 0x00, 0x00] ++ rid) ++ [0x80, 0x02]) ++ List.replicate 116 0 := by
    rw [setSlice_append (show ([0x32, 0x50, 0x00, 0x00] ++ rid).length = 10 by
      simp [hrid]) (by norm_num : (12 : Nat) = 10 + 2), drop_replicate]
  have s4 : setSlice ((([0x32, 0x50, 0x00, 0x00] ++ rid) ++ [0x80, 0x02]) ++
      List.replicate 116 0) 12 14 [0x00, 0x06] =
      ((([0x32, 0x50, 0x00, 0x00] ++ rid) ++ [0x80, 0x02]) ++ [0x00, 0x06]) ++
        List.replicate 114 0 := by
    rw [setSlice_append (show (([0x32, 0x50, 0x00, 0x00] ++ rid) ++ [0x80, 0x02]).length = 12
      by simp [hrid]) (by norm_num : (14 : Nat) = 12 + 2), drop_replicate]
  have s5 : setSlice (((([0x32, 0x50, 0x00, 0x00] ++ rid) ++ [0x80, 0x02]) ++ [0x00, 0x06]) ++
      List.replicate 114 0) 14 20 mid =
      (((([0x32, 0x50, 0x00, 0x00] ++ rid) ++ [0x80, 0x02]) ++ [0x00, 0x06]) ++ mid) ++
        List.replicate 108 0 := by
    rw [setSlice_append
      (show ((([0x32, 0x50, 0x00, 0x00] ++ rid) ++ [0x80, 0x02]) ++ [0x00, 0x06]).length = 14
        by simp [hrid]) (by norm_num : (20 : Nat) = 14 + 6), drop_replicate]
  have s6 : setSlice ((((([0x32, 0x50, 0x00, 0x00] ++ rid) ++ [0x80, 0x02]) ++ [0x00, 0x06]) ++
      mid) ++ List.replicate 108 0) 20 22 [0x00, 4 + 2 + banner.length] =
      ((((([0x32, 0x50, 0x00, 0x00] ++ rid) ++ [0x80, 0x02]) ++ [0x00, 0x06]) ++ mid) ++
        [0x00, 4 + 2 + banner.length]) ++ List.replicate 106 0 := by
    rw [setSlice_append
      (show (((([0x32, 0x50, 0x00, 0x00] ++ rid) ++ [0x80, 0x02]) ++ [0x00, 0x06]) ++
        mid).length = 20 by simp [hrid, hmid]) (by norm_num : (22 : Nat) = 20 + 2),
      drop_replicate]
  have s7 : setSlice (((((([0x32, 0x50, 0x00, 0x00] ++ rid) ++ [0x80, 0x02]) ++ [0x00, 0x06]) ++
      mid) ++ [0x00, 4 + 2 + banner.length]) ++ List.replicate 106 0) 22 26
      [0x32, 0x50, 0x56, 0x4e] =
      (((((([0x32, 0x50, 0x00, 0x00] ++ rid) ++ [0x80, 0x02]) ++ [0x00, 0x06]) ++ mid) ++
        [0x00, 4 + 2 + banner.length]) ++ [0x32, 0x50, 0x56, 0x4e]) ++
        List.replicate 102 0 := by
    rw [setSlice_append
      (show ((((([0x32, 0x50, 0x00, 0x00] ++ rid) ++ [0x80, 0x02]) ++ [0x00, 0x06]) ++
        mid) ++ [0x00, 4 + 2 + banner.length]).length = 22 by simp [hrid, hmid])
      (by norm_num : (26 : Nat) = 22 + 4), drop_replicate]
  have s8 : setSlice ((((((([0x32, 0x50, 0x00, 0x00] ++ rid) ++ [0x80, 0x02]) ++
      [0x00, 0x06]) ++ mid) ++ [0x00, 4 + 2 + banner.length]) ++ [0x32, 0x50, 0x56, 0x4e]) ++
      List.replicate 102 0) 26 28 [0x00, banner.length] =
      ((((((([0x32, 0x50, 0x00, 0x00] ++ rid) ++ [0x80, 0x02]) ++ [0x00, 0x06]) ++ mid) ++
        [0x00, 4 + 2 + banner.length]) ++ [0x32, 0x50, 0x56, 0x4e]) ++
        [0x00, banner.length]) ++ List.replicate 100 0 := by
    rw [setSlice_append
      (show (((((([0x32, 0x50, 0x00, 0x00] ++ rid) ++ [0x80, 0x02]) ++ [0x00, 0x06]) ++
        mid) ++ [0x00, 4 + 2 + banner.length]) ++ [0x32, 0x50, 0x56, 0x4e]).length = 26
        by simp [hrid, hmid]) (by norm_num : (28 : Nat) = 26 + 2), drop_replicate]
  have s9 : setSlice (((((((([0x32, 0x50, 0x00, 0x00] ++ rid) ++ [0x80, 0x02]) ++
      [0x00, 0x06]) ++ mid) ++ [0x00, 4 + 2 + banner.length]) ++ [0x32, 0x50, 0x56, 0x4e]) ++
      [0x00, banner.length]) ++ List.replicate 100 0) 28 (28 + banner.length) banner =
      (((((((([0x32, 0x50, 0x00, 0x00] ++ rid) ++ [0x80, 0x02]) ++ [0x00, 0x06]) ++ mid) ++
        [0x00, 4 + 2 + banner.length]) ++ [0x32, 0x50, 0x56, 0x4e]) ++
        [0x00, banner.length]) ++ banner) ++ List.replicate (100 - banner.length) 0 := by
    rw [setSlice_append
      (show ((((((([0x32, 0x50, 0x00, 0x00] ++ rid) ++ [0x80, 0x02]) ++ [0x00, 0x06]) ++
        mid) ++ [0x00, 4 + 2 + banner.length]) ++ [0x32, 0x50, 0x56, 0x4e]) ++
        [0x00, banner.length]).length = 28 by simp [hrid, hmid]) rfl, drop_replicate]
  have hfinal : (((((((([0x32, 0x50, 0x00, 0x00] ++ rid) ++ [0x80, 0x02]) ++ [0x00, 0x06]) ++
      mid) ++ [0x00, 4 + 2 + banner.length]) ++ [0x32, 0x50, 0x56, 0x4e]) ++
      [0x00, banner.length]) ++ banner) ++ List.replicate (100 - banner.length) 0 =
      replyBody rid mid banner := by
    simp only [replyBody, List.append_assoc, List.cons_append, List.nil_append]
  have hblen : (replyBody rid mid banner).length = 128 := by
    simp only [replyBody, List.length_append, List.length_cons, List.length_nil,
      List.length_replicate]
    omega
  simp only [buildReply, hprev, hb1, hb2]
  rw [s1, s2, s3, s4, s5, s6, s7, s8, s9, hfinal]
  unfold pack_into_H
  rw [if_pos ⟨by have := twoping_checksum_range (replyBody rid mid banner); omega,
    by omega⟩]

/-- Structural normal form of the packed reply: writing two checksum bytes
`a b` into offsets 2-3 of `replyBody` yields an explicit cons decomposition. -/
lemma reply_decomp (rid mid banner : List Nat) (a b : Nat) :
    setSlice (replyBody rid mid banner) 2 4 [a, b] =
      0x32 :: 0x50 :: a :: b :: (rid ++ ([0x80, 0x02, 0x00, 0x06] ++ (mid ++
        ([0x00, 4 + 2 + banner.length] ++ ([0x32, 0x50, 0x56, 0x4e] ++
          ([0x00, banner.length] ++
            (banner ++ List.replicate (100 - banner.length) 0))))))) := rfl

/-- Field extraction from the packed reply buffer. -/
lemma reply_fields (rid mid banner : List Nat) (a b : Nat)
    (hrid : rid.length = 6) (hmid : mid.length = 6) :
    (setSlice (replyBody rid mid banner) 2 4 [a, b]).take 2 = [0x32, 0x50] ∧
    ((setSlice (replyBody rid mid banner) 2 4 [a, b]).drop 2).take 2 = [a, b] ∧
    ((setSlice (replyBody rid mid banner) 2 4 [a, b]).drop 10).take 2 = [0x80, 0x02] ∧
    ((setSlice (replyBody rid mid banner) 2 4 [a, b]).drop 12).take 2 = [0x00, 0x06] ∧
    ((setSlice (replyBody rid mid banner) 2 4 [a, b]).drop 14).take 6 = mid ∧
    ((setSlice (replyBody rid mid banner) 2 4 [a, b]).drop 20).take 2 =
      [0x00, 4 + 2 + banner.length] ∧
    ((setSlice (replyBody rid mid banner) 2 4 [a, b]).drop 22).take 4 =
      [0x32, 0x50, 0x56, 0x4e] ∧
    ((setSlice (replyBody rid mid banner) 2 4 [a, b]).drop 26).take 2 =
      [0x00, banner.length] ∧
    (setSlice (replyBody rid mid banner) 2 4 [a, b]).drop 28 =
      banner ++ List.replicate (100 - banner.length) 0 ∧
    setSlice (setSlice (replyBody rid mid banner) 2 4 [a, b]) 2 4 [0x00, 0x00] =
      replyBody rid mid banner ∧
    (setSlice (replyBody rid mid banner) 2 4 [a, b]).length =
      28 + banner.length + (100 - banner.length) := by
  rw [reply_decomp]
  have hd10 : (0x32 :: 0x50 :: a :: b :: (rid ++ ([0x80, 0x02, 0x00, 0x06] ++ (mid ++
      ([0x00, 4 + 2 + banner.length] ++ ([0x32, 0x50, 0x56, 0x4e] ++
        ([0x00, banner.length] ++
          (banner ++ List.replicate (100 - banner.length) 0)))))))).drop 10 =
      [0x80, 0x02, 0x00, 0x06] ++ (mid ++
        ([0x00, 4 + 2 + banner.length] ++ ([0x32, 0x50, 0x56, 0x4e] ++
          ([0x00, banner.length] ++
            (banner ++ List.replicate (100 - banner.length) 0))))) := by
    show (rid ++ _).drop 6 = _
    exact List.drop_left' hrid
  have hd14 : (0x32 :: 0x50 :: a :: b :: (rid ++ ([0x80, 0x02, 0x00, 0x06] ++ (mid ++
      ([0x00, 4 + 2 + banner.length] ++ ([0x32, 0x50, 0x56, 0x4e] ++
        ([0x00, banner.length] ++
          (banner ++ List.replicate (100 - banner.length) 0)))))))).drop 14 =
      mid ++ ([0x00, 4 + 2 + banner.length] ++ ([0x32, 0x50, 0x56, 0x4e] ++
        ([0x00, banner.length] ++
          (banner ++ List.replicate (100 - banner.length) 0)))) := by
    rw [show (14 : Nat) = 10 + 4 from rfl, ← List.drop_drop, hd10]
    rfl
  have hd20 : (0x32 :: 0x50 :: a :: b :: (rid ++ ([0x80, 0x02, 0x00, 0x06] ++ (mid ++
      ([0x00, 4 + 2 + banner.length] ++ ([0x32, 0x50, 0x56, 0x4e] ++
        ([0x00, banner.length] ++
          (banner ++ List.replicate (100 - banner.length) 0)))))))).drop 20 =
      [0x00, 4 + 2 + banner.length] ++ ([0x32, 0x50, 0x56, 0x4e] ++
        ([0x00, banner.length] ++
          (banner ++ List.replicate (100 - banner.length) 0))) := by
    rw [show (20 : Nat) = 14 + 6 from rfl, ← List.drop_drop, hd14]
    exact List.drop_left' hmid
  have hd22 : (0x32 :: 0x50 :: a :: b :: (rid ++ ([0x80, 0x02, 0x00, 0x06] ++ (mid ++
      ([0x00, 4 + 2 + banner.length] ++ ([0x32, 0x50, 0x56, 0x4e] ++
        ([0x00, banner.length] ++
          (banner ++ List.replicate (100 - banner.length) 0)))))))).drop 22 =
      [0x32, 0x50, 0x56, 0x4e] ++ ([0x00, banner.length] ++
        (banner ++ List.replicate (100 - banner.length) 0)) := by
    rw [show (22 : Nat) = 20 + 2 from rfl, ← List.drop_drop, hd20]
    rfl
  have hd26 : (0x32 :: 0x50 :: a :: b :: (rid ++ ([0x80, 0x02, 0x00, 0x06] ++ (mid ++
      ([0x00, 4 + 2 + banner.length] ++ ([0x32, 0x50, 0x56, 0x4e] ++
        ([0x00, banner.length] ++
          (banner ++ List.replicate (100 - banner.length) 0)))))))).drop 26 =
      [0x00, banner.length] ++ (banner ++ List.replicate (100 - banner.length) 0) := by
    rw [show (26 : Nat) = 22 + 4 from rfl, ← List.drop_drop, hd22]
    rfl
  have hd28 : (0x32 :: 0x50 :: a :: b :: (rid ++ ([0x80, 0x02, 0x00, 0x06] ++ (mid ++
      ([0x00, 4 + 2 + banner.length] ++ ([0x32, 0x50, 0x56, 0x4e] ++
        ([0x00, banner.length] ++
          (banner ++ List.replicate (100 - banner.length) 0)))))))).drop 28 =
      banner ++ List.replicate (100 - banner.length) 0 := by
    rw [show (28 : Nat) = 26 + 2 from rfl, ← List.drop_drop, hd26]
    rfl
  refine ⟨rfl, rfl, ?_, ?_, ?_, ?_, ?_, ?_, hd28, ?_, ?_⟩
  · rw [hd10]
    rfl
  · rw [show (12 : Nat) = 10 + 2 from rfl, ← List.drop_drop, hd10]
    rfl
  · rw [hd14]
    exact List.take_left' hmid
  · rw [hd20]
    rfl
  · rw [hd22]
    rfl
  · rw [hd26]
    rfl
  · rfl
  · simp [hrid, hmid]
    omega

/-- Inversion: a produced reply comes from `buildReply` on a packet whose
full fixed header was readable. -/
lemma parse_ok_some {rid banner prev packet r : List Nat}
    (h : parsePacket rid banner prev packet = .ok (some r)) :
    12 ≤ packet.length ∧
      buildReply rid ((packet.drop 4).take 6) banner prev = .ok r := by
  unfold parsePacket at h
  split at h
  · simp at h
  · split at h
    · simp at h
    · rename_i v heq
      have hacc : parseAccepted rid banner prev packet = .ok (some r) := by
        by_cases h0 : v ≠ 0
        · rw [if_pos h0] at h
          by_cases h1 : twoping_checksum ([0x32, 0x50, 0x00, 0x00] ++ packet.drop 4) ≠ v
          · rw [if_pos h1] at h
            simp at h
          · rw [if_neg h1] at h
            exact h
        · rw [if_neg h0] at h
          exact h
      unfold parseAccepted at hacc
      dsimp only at hacc
      split at hacc
      · simp at hacc
      · rename_i fl heq10
        have hlen := unpack_ok_length heq10
        split at hacc
        · simp at hacc
        · split at hacc
          · simp at hacc
          · rename_i r2 heqB
            simp only [Except.ok.injEq, Option.some.injEq] at hacc
            subst hacc
            exact ⟨by omega, heqB⟩

/-- A datagram passing magic and checksum validation is handed to the
post-validation stage. -/
lemma parse_validated {rid banner prev packet : List Nat}
    (hmagic : packet.take 2 = [0x32, 0x50]) (hlen : 4 ≤ packet.length)
    (hcs : readH packet 2 = 0 ∨
      twoping_checksum ([0x32, 0x50, 0x00, 0x00] ++ packet.drop 4) = readH packet 2) :
    parsePacket rid banner prev packet = parseAccepted rid banner prev packet := by
  unfold parsePacket
  rw [if_neg (not_not_intro hmagic), unpack_eq (by omega)]
  show (if readH packet 2 ≠ 0 then
      if twoping_checksum ([0x32, 0x50, 0x00, 0x00] ++ packet.drop 4) ≠ readH packet 2 then
        Except.ok none
      else parseAccepted rid banner prev packet
    else parseAccepted rid banner prev packet) = parseAccepted rid banner prev packet
  by_cases h0 : readH packet 2 = 0
  · rw [if_neg (not_not_intro h0)]
  · rcases hcs with hc | hc
    · exact absurd hc h0
    · rw [if_pos h0, if_neg (not_not_intro hc)]

/-- The post-validation stage without the reply-requested bit: no reply. -/
lemma parseAccepted_noreply {rid banner prev packet : List Nat}
    (hlen : 12 ≤ packet.length) (hbit : readH packet 10 &&& 0x0001 = 0) :
    parseAccepted rid banner prev packet = .ok none := by
  unfold parseAccepted
  rw [unpack_eq (by omega)]
  show (if readH packet 10 &&& 0x0001 = 0 then Except.ok none else _) = Except.ok none
  rw [if_pos hbit]

/-- The post-validation stage with the reply-requested bit: reply built. -/
lemma parseAccepted_reply {rid banner prev packet : List Nat}
    (hlen : 12 ≤ packet.length) (hbit : readH packet 10 &&& 0x0001 ≠ 0) :
    parseAccepted rid banner prev packet =
      match buildReply rid ((packet.drop 4).take 6) banner prev with
      | .error e => .error e
      | .ok r => .ok (some r) := by
  unfold parseAccepted
  rw [unpack_eq (by omega)]
  show (if readH packet 10 &&& 0x0001 = 0 then Except.ok none else _) = _
  rw [if_neg hbit]

/-- Claim C2: every reply the encoder produces is checksum self-consistent —
recomputing `twoping_checksum` over the reply with its checksum field
(offsets 2-3) zeroed yields exactly the value stored in that field. -/
theorem C2_reply_checksum_roundtrip (rid banner prev packet : List Nat)
    (hrid : rid.length = 6) (hban : banner.length ≤ 100)
    (hprev : prev.length = 128) :
    replyChecksumOk (parsePacket rid banner prev packet) := by
  intro r hr
  obtain ⟨hlen, hbuild⟩ := parse_ok_some hr
  have hmid : ((packet.drop 4).take 6).length = 6 := by
    simp [List.length_take, List.length_drop]
    omega
  rw [buildReply_eq rid _ banner prev hrid hmid hban hprev] at hbuild
  have hrS : setSlice (replyBody rid ((packet.drop 4).take 6) banner) 2 4
      [twoping_checksum (replyBody rid ((packet.drop 4).take 6) banner) / 256,
       twoping_checksum (replyBody rid ((packet.drop 4).take 6) banner) % 256] = r := by
    simpa using hbuild
  obtain ⟨f0, f2, f10, f12, f14, f20, f22, f26, f28, fzero, flen⟩ :=
    reply_fields rid ((packet.drop 4).take 6) banner
      (twoping_checksum (replyBody rid ((packet.drop 4).take 6) banner) / 256)
      (twoping_checksum (replyBody rid ((packet.drop 4).take 6) banner) % 256) hrid hmid
  rw [← hrS, fzero, readH_of_drop f2]
  omega

set_option maxRecDepth 4000 in
/-- Witness for C2: a 12-byte reply-requested datagram with zero checksum
field, an empty banner, and a fresh six-byte reply id. -/
theorem C2_reply_checksum_roundtrip_witness :
    producesReply (parsePacket [1, 2, 3, 4, 5, 6] [] (List.replicate 128 0)
      [0x32, 0x50, 0x00, 0x00, 0xAA, 0xAA, 0xAA, 0xAA, 0xAA, 0xAA, 0x00, 0x01]) = true ∧
    replyChecksumOk (parsePacket [1, 2, 3, 4, 5, 6] [] (List.replicate 128 0)
      [0x32, 0x50, 0x00, 0x00, 0xAA, 0xAA, 0xAA, 0xAA, 0xAA, 0xAA, 0x00, 0x01]) :=
  ⟨by decide, C2_reply_checksum_roundtrip [1, 2, 3, 4, 5, 6] [] (List.replicate 128 0)
    [0x32, 0x50, 0x00, 0x00, 0xAA, 0xAA, 0xAA, 0xAA, 0xAA, 0xAA, 0x00, 0x01]
    (by decide) (by decide) (by decide)⟩

/-- Claim C6: every reply produced for an accepted reply-requested packet
carries the magic at offset 0, `80 02` at offsets 10-11, In-Reply-To length 6
at offsets 12-13, the inbound `message_id` verbatim at offsets 14-19, the
Extended block length `4 + 2 + len(banner)` at offsets 20-21, the
`0x3250564E` tag at offsets 22-25, the banner length at offsets 26-27, and
the banner from offset 28. -/
theorem C6_reply_layout (rid banner prev packet : List Nat)
    (hrid : rid.length = 6) (hban : banner.length ≤ 100)
    (hprev : prev.length = 128) :
    replyFieldsOk packet banner (parsePacket rid banner prev packet) := by
  intro r hr
  obtain ⟨hlen, hbuild⟩ := parse_ok_some hr
  have hmid : ((packet.drop 4).take 6).length = 6 := by
    simp [List.length_take, List.length_drop]
    omega
  rw [buildReply_eq rid _ banner prev hrid hmid hban hprev] at hbuild
  have hrS : setSlice (replyBody rid ((packet.drop 4).take 6) banner) 2 4
      [twoping_checksum (replyBody rid ((packet.drop 4).take 6) banner) / 256,
       twoping_checksum (replyBody rid ((packet.drop 4).take 6) banner) % 256] = r := by
    simpa using hbuild
  obtain ⟨f0, f2, f10, f12, f14, f20, f22, f26, f28, fzero, flen⟩ :=
    reply_fields rid ((packet.drop 4).take 6) banner
      (twoping_checksum (replyBody rid ((packet.drop 4).take 6) banner) / 256)
      (twoping_checksum (replyBody rid ((packet.drop 4).take 6) banner) % 256) hrid hmid
  subst hrS
  refine ⟨f0, (getD_take2 f10).1, (getD_take2 f10).2, ?_, f14, ?_, f22, ?_, ?_⟩
  · rw [readH_of_drop f12]
  · rw [readH_of_drop f20]
    omega
  · rw [readH_of_drop f26]
    omega
  · rw [f28]
    exact List.take_left' rfl

set_option maxRecDepth 4000 in
/-- Witness for C6: a reply-requested datagram with a one-byte banner. -/
theorem C6_reply_layout_witness :
    producesReply (parsePacket [9, 8, 7, 6, 5, 4] [0x41] (List.replicate 128 0)
      [0x32, 0x50, 0x00, 0x00, 0x01, 0x02, 0x03, 0x04, 0x05, 0x06, 0x00, 0x01]) = true ∧
    replyFieldsOk [0x32, 0x50, 0x00, 0x00, 0x01, 0x02, 0x03, 0x04, 0x05, 0x06, 0x00, 0x01]
      [0x41] (parsePacket [9, 8, 7, 6, 5, 4] [0x41] (List.replicate 128 0)
        [0x32, 0x50, 0x00, 0x00, 0x01, 0x02, 0x03, 0x04, 0x05, 0x06, 0x00, 0x01]) :=
  ⟨by decide, C6_reply_layout [9, 8, 7, 6, 5, 4] [0x41] (List.replicate 128 0)
    [0x32, 0x50, 0x00, 0x00, 0x01, 0x02, 0x03, 0x04, 0x05, 0x06, 0x00, 0x01]
    (by decide) (by decide) (by decide)⟩

/-- Claim C7: for every accepted packet, bit 0 of `opcode_flags` alone
decides the outcome — clear means no reply regardless of all other fields,
set means a reply is produced regardless of the other fifteen flag bits and
of any trailing extension bytes. -/
theorem C7_reply_bit_decides (rid banner prev packet : List Nat)
    (hrid : rid.length = 6) (hban : banner.length ≤ 100)
    (hprev : prev.length = 128) (hacc : acceptedPacket packet) :
    (readH packet 10 &&& 0x0001 = 0 →
      parsePacket rid banner prev packet = .ok none) ∧
    (readH packet 10 &&& 0x0001 ≠ 0 →
      producesReply (parsePacket rid banner prev packet) = true) := by
  obtain ⟨hmagic, hlen, hcs⟩ := hacc
  rw [parse_validated hmagic (by omega) hcs]
  constructor
  · intro hbit
    exact parseAccepted_noreply hlen hbit
  · intro hbit
    rw [parseAccepted_reply hlen hbit]
    have hmid : ((packet.drop 4).take 6).length = 6 := by
      simp [List.length_take, List.length_drop]
      omega
    rw [buildReply_eq rid _ banner prev hrid hmid hban hprev]
    rfl

set_option maxRecDepth 4000 in
/-- Witness for C7: an accepted datagram whose `opcode_flags` is `0xFFFF`
(bit 0 plus all fifteen other bits) with two trailing extension bytes. -/
theorem C7_reply_bit_decides_witness :
    acceptedPacket [0x32, 0x50, 0x00, 0x00, 0x01, 0x02, 0x03, 0x04, 0x05, 0x06,
      0xFF, 0xFF, 0xDE, 0xAD] ∧
    producesReply (parsePacket [1, 2, 3, 4, 5, 6] program_version (List.replicate 128 0)
      [0x32, 0x50, 0x00, 0x00, 0x01, 0x02, 0x03, 0x04, 0x05, 0x06,
        0xFF, 0xFF, 0xDE, 0xAD]) = true :=
  ⟨by decide,
   (C7_reply_bit_decides [1, 2, 3, 4, 5, 6] program_version (List.replicate 128 0)
      [0x32, 0x50, 0x00, 0x00, 0x01, 0x02, 0x03, 0x04, 0x05, 0x06, 0xFF, 0xFF, 0xDE, 0xAD]
      (by decide) (by decide) (by decide) (by decide)).2 (by decide)⟩

/-- Claim C4 (code bug): a 2-byte datagram `32 50` — correct magic, but no
checksum field to read — makes the decoder raise `struct.error` from
`struct.unpack_from('!H', packet, 2)` instead of being silently discarded;
`run()` re-raises it via the bare `raise` (whose following `continue` is
unreachable), so the claimed "discard with no reply" does not happen. -/
theorem C4_short_magic_raises :
    parsePacket [1, 2, 3, 4, 5, 6] program_version (List.replicate 128 0)
      [0x32, 0x50] = .error () := rfl

/-- Claim C5 (code bug): an 11-byte datagram — shorter than the 12-byte
fixed header region, with correct magic and zero checksum — makes the
decoder raise `struct.error` from `struct.unpack_from('!H', packet, 10)`
instead of returning the silent-discard result. -/
theorem C5_short_header_raises :
    parsePacket [1, 2, 3, 4, 5, 6] program_version (List.replicate 128 0)
      [0x32, 0x50, 0x00, 0x00, 0xAA, 0xAA, 0xAA, 0xAA, 0xAA, 0xAA, 0x00] =
      .error () := rfl

set_option maxRecDepth 4000 in
/-- Counterexample to claim C9 as stated: a 250-byte banner is not detected
at construction time (`twoPingInit` succeeds — the constructor performs no
banner validation), and reply encoding then fails per-packet
(`bytes([0x00, 4 + 2 + 250])` raises `ValueError`). -/
theorem C9_counterexample :
    twoPingInit (List.replicate 250 0x41) = some (List.replicate 250 0x41) ∧
    buildReply [1, 2, 3, 4, 5, 6] [0xAA, 0xAA, 0xAA, 0xAA, 0xAA, 0xAA]
      (List.replicate 250 0x41) (List.replicate 128 0) = .error () :=
  ⟨rfl, rfl⟩

/-- Claim C9 as amended: the constructor performs no banner-size validation
(startup always succeeds), and an oversized banner instead surfaces during
per-packet reply encoding — any banner longer than 249 bytes makes
`buildReply` fail with the byte-range error. -/
theorem C9_no_startup_validation (banner rid mid prev : List Nat) :
    (twoPingInit banner).isSome = true ∧
    (249 < banner.length → buildReply rid mid banner prev = .error ()) := by
  refine ⟨rfl, ?_⟩
  intro h
  have hb : mkBytes2 0x00 (4 + 2 + banner.length) = .error () := by
    unfold mkBytes2
    rw [if_neg]
    omega
  simp only [buildReply, hb]

set_option maxRecDepth 4000 in
/-- Witness for the amended C9 at a 250-byte banner. -/
theorem C9_no_startup_validation_witness :
    (twoPingInit (List.replicate 250 0x41)).isSome = true ∧
    buildReply [0, 0, 0, 0, 0, 0] [1, 1, 1, 1, 1, 1] (List.replicate 250 0x41)
      (List.replicate 128 0) = .error () :=
  ⟨(C9_no_startup_validation (List.replicate 250 0x41) [0, 0, 0, 0, 0, 0]
      [1, 1, 1, 1, 1, 1] (List.replicate 128 0)).1,
   (C9_no_startup_validation (List.replicate 250 0x41) [0, 0, 0, 0, 0, 0]
      [1, 1, 1, 1, 1, 1] (List.replicate 128 0)).2 (by decide)⟩

/-- Claim C10: with a banner of at most 100 bytes and the 128-byte reusable
buffer, every reply-building invocation succeeds, the produced buffer is
exactly 128 bytes, and every byte from offset `28 + len(banner)` through 127
is zero — no stale data survives from the previous buffer contents. -/
theorem C10_reply_frame (rid mid banner prev : List Nat) (hrid : rid.length = 6)
    (hmid : mid.length = 6) (hban : banner.length ≤ 100)
    (hprev : prev.length = 128) :
    (buildReply rid mid banner prev).toOption.isSome = true ∧
    replyFrameOk banner (buildReply rid mid banner prev) := by
  rw [buildReply_eq rid mid banner prev hrid hmid hban hprev]
  refine ⟨rfl, ?_⟩
  intro r hr
  have hrS : setSlice (replyBody rid mid banner) 2 4
      [twoping_checksum (replyBody rid mid banner) / 256,
       twoping_checksum (replyBody rid mid banner) % 256] = r := by
    simpa using hr
  obtain ⟨f0, f2, f10, f12, f14, f20, f22, f26, f28, fzero, flen⟩ :=
    reply_fields rid mid banner
      (twoping_checksum (replyBody rid mid banner) / 256)
      (twoping_checksum (replyBody rid mid banner) % 256) hrid hmid
  subst hrS
  constructor
  · omega
  · intro i h1 h2
    have hdrop : (setSlice (replyBody rid mid banner) 2 4
        [twoping_checksum (replyBody rid mid banner) / 256,
         twoping_checksum (replyBody rid mid banner) % 256]).drop (28 + banner.length) =
        List.replicate (100 - banner.length) 0 := by
      rw [← List.drop_drop, f28]
      exact List.drop_left' rfl
    have hi : i = 28 + banner.length + (i - (28 + banner.length)) := by omega
    rw [hi, getD_drop_add, hdrop]
    exact getD_replicate_zero _ _

set_option maxRecDepth 4000 in
/-- Witness for C10: a one-byte banner and a previous buffer full of `0xFF`
stale bytes. -/
theorem C10_reply_frame_witness :
    (buildReply [1, 2, 3, 4, 5, 6] [7, 7, 7, 7, 7, 7] [0x42]
      (List.replicate 128 0xFF)).toOption.isSome = true ∧
    replyFrameOk [0x42] (buildReply [1, 2, 3, 4, 5, 6] [7, 7, 7, 7, 7, 7] [0x42]
      (List.replicate 128 0xFF)) :=
  C10_reply_frame [1, 2, 3, 4, 5, 6] [7, 7, 7, 7, 7, 7] [0x42]
    (List.replicate 128 0xFF) (by decide) (by decide) (by decide) (by decide)
